import Mathlib

/-!
Shallow embedding of the devicehub-go MKS 937B protocol driver
(`protocol/protocol.go`, `protocol/readings.go`, `protocol/control.go`,
`protocol/errors.go`).

Go `float64` values are modelled as exact rationals (`Rat`); binary
rounding is out of scope for the properties below, whose inputs are
never within rounding distance of a comparison tie.  The transport
collaborator (`unicomm`) is modelled as a scripted state: the list of
frames written so far and the list of raw responses that `ReadUntil`
will return, in order.  The per-instance mutex serialises each call in
the source; the embedding is accordingly a sequential state transformer.
-/

namespace MKS

/-- Go errors produced by the driver.  `errNotConnected` is the typed
package-level variable `ErrNotConnected`; `errorf msg` is an ad-hoc
`fmt.Errorf` error value (distinct from every typed error); the other
constructors model the typed error structs of `errors.go`.
`transportErr` stands for an error returned by `Communication.ReadUntil`,
and `parseFloatErr` for the error value returned by
`strconv.ParseFloat` on a malformed number. -/
inductive GoError where
  | errNotConnected
  | errorf (msg : String)
  | transportErr
  | unexpectedReply (sent got : String)
  | unexpectedAddress (expected got : String)
  | unexpectedParameter (expected got : String)
  | invalidChannel (minC maxC ch : Int)
  | invalidChannelControl (ch : Int)
  | invalidPRO (got : Rat)
  | invalidRangeExp (minV maxV got : Rat)
  | parseFloatErr (s : String)
  deriving DecidableEq

instance {ε α : Type} [DecidableEq ε] [DecidableEq α] : DecidableEq (Except ε α) := fun x y =>
  match x, y with
  | .ok a, .ok b => if h : a = b then .isTrue (by rw [h]) else .isFalse (by simp [h])
  | .error a, .error b => if h : a = b then .isTrue (by rw [h]) else .isFalse (by simp [h])
  | .ok _, .error _ => .isFalse (by simp)
  | .error _, .ok _ => .isFalse (by simp)

/-- The scripted transport collaborator plus connection flag: `writes`
records every frame passed to `Communication.Write`, and `responses`
scripts the successive return values of `Communication.ReadUntil`
(an empty script models a transport read error). -/
structure CommState where
  connected : Bool
  writes : List String
  responses : List String
  deriving DecidableEq

/-- Decimal digits of a natural number, most significant first; `fuel`
bounds the recursion and is ample for every value the driver prints. -/
def natDigitsAux : Nat → Nat → List Char
  | 0, _ => []
  | fuel + 1, n =>
    if n < 10 then [Nat.digitChar n]
    else natDigitsAux fuel (n / 10) ++ [Nat.digitChar (n % 10)]

/-- Models Go `fmt.Sprint` / `%d` on integers (for |i| < 10^64, which
covers every channel and integer the driver formats). -/
def intDecStr (i : Int) : String :=
  if i < 0 then "-" ++ String.mk (natDigitsAux 64 i.natAbs)
  else String.mk (natDigitsAux 64 i.toNat)

/-- Models `fmt.Sprintf("%03d", a)` on the address range the driver uses
(0 ≤ a < 1000); other values fall back to plain decimal. -/
def pad3 (a : Int) : String :=
  if 0 ≤ a ∧ a < 1000 then
    String.mk [Nat.digitChar (a.toNat / 100), Nat.digitChar (a.toNat / 10 % 10),
      Nat.digitChar (a.toNat % 10)]
  else intDecStr a

/-- The lazy tail `(.*?);FF` of the Go regex: the shortest run of
non-newline characters followed by the literal `;FF`; returns that run
(the second capture group). -/
def lazyToFF : List Char → Option (List Char)
  | ';' :: 'F' :: 'F' :: _ => some []
  | c :: rest => if c = '\n' then none else (lazyToFF rest).map (fun p => c :: p)
  | [] => none

/-- Attempts to match the Go pattern `@([0-9]+)(?:ACK|NAK)(.*?);FF` at
the head of the character list, returning the two capture groups.  The
greedy `[0-9]+` takes the maximal digit run (a shorter run would leave a
digit where `ACK`/`NAK` must start, so backtracking cannot succeed). -/
def matchFrameAt : List Char → Option (String × String)
  | '@' :: rest =>
    let ds := rest.takeWhile Char.isDigit
    if ds.isEmpty then none
    else
      match rest.dropWhile Char.isDigit with
      | 'A' :: 'C' :: 'K' :: r3 => (lazyToFF r3).map fun p => (String.mk ds, String.mk p)
      | 'N' :: 'A' :: 'K' :: r3 => (lazyToFF r3).map fun p => (String.mk ds, String.mk p)
      | _ => none
  | _ => none

/-- Leftmost-match search over all start positions. -/
def findMatchAux : List Char → Option (String × String)
  | [] => none
  | c :: rest =>
    match matchFrameAt (c :: rest) with
    | some r => some r
    | none => findMatchAux rest

/-- Models `regexp.MustCompile(...).FindStringSubmatch` for the
(unanchored) pattern `@([0-9]+)(?:ACK|NAK)(.*?);FF`: the leftmost
position at which the pattern matches wins.  `none` corresponds to the
`len(matches) < 3` test in the source. -/
def findMatch (s : String) : Option (String × String) := findMatchAux s.toList

/-- `Query` of `protocol.go`: not-connected guard, frame build, write,
scripted read, regex match, address check. -/
def Query (address : Int) (st : CommState) (command : String) :
    CommState × Except GoError String :=
  if !st.connected then (st, .error .errNotConnected)
  else
    let addressStr := pad3 address
    let message := "@" ++ addressStr ++ command ++ "?;FF"
    match st.responses with
    | [] => ({ st with writes := st.writes ++ [message] }, .error .transportErr)
    | response :: rest =>
      let st2 : CommState :=
        { st with writes := st.writes ++ [message], responses := rest }
      match findMatch response with
      | none => (st2, .error (.unexpectedReply message response))
      | some (a, p) =>
        if a = addressStr then (st2, .ok p)
        else (st2, .error (.unexpectedAddress addressStr a))

/-- `Set` of `protocol.go`.  Note the not-connected branch returns the
ad-hoc `fmt.Errorf("no MKS937B is connected")` value, not the typed
`ErrNotConnected`; the echoed parameter must equal the sent one. -/
def Set (address : Int) (st : CommState) (command parameter : String) :
    CommState × Except GoError Unit :=
  if !st.connected then (st, .error (.errorf "no MKS937B is connected"))
  else
    let addressStr := pad3 address
    let message := "@" ++ addressStr ++ command ++ "!" ++ parameter ++ ";FF"
    match st.responses with
    | [] => ({ st with writes := st.writes ++ [message] }, .error .transportErr)
    | response :: rest =>
      let st2 : CommState :=
        { st with writes := st.writes ++ [message], responses := rest }
      match findMatch response with
      | none => (st2, .error (.unexpectedReply message response))
      | some (a, p) =>
        if a = addressStr then
          if p = parameter then (st2, .ok ())
          else (st2, .error (.unexpectedParameter parameter p))
        else (st2, .error (.unexpectedAddress addressStr a))

/-- A decoded pressure measurement (`PressureReading` of `readings.go`);
the Go zero value is `⟨0, ""⟩`, which is what `make([]PressureReading, 6)`
fills the result slice of `GetPressures` with. -/
structure PressureReading where
  value : Rat
  status : String
  deriving DecidableEq

/-- The `stringResponse` table of `readings.go`, in source order.  In Go
this is a map iterated in unspecified order; `parsePressureWith` below
makes the iteration order an explicit parameter. -/
def stringResponse : List (String × String) := [
  ("LO<", "Pressure lower than minimum"),
  ("ATM", "PR when pressure is lower than 450 Torr"),
  ("OFF", "Cold cathode HV if OFF, or HC/PR/CP power if OFF"),
  ("WAIT", "CC or HC startup delay"),
  ("LowEmis", "HC OFF due to lowe emission"),
  ("CTRL_OFF", "CC or HC if OFF in controlled state"),
  ("PROT_OFF", "CC or HC if OFF in protected state"),
  ("MISCONN", "Sensor improperly connected, or broken filament (PR, CP only)"),
  ("NOGAUGE", "Controller unable to determine sensor connection"),
  ("NO_GAUGE", "Controller unable to determine sensor connection"),
  ("COMB_DISABLED", "Combination disabled")]

/-- Models Go `strings.Contains` (the driver's strings are ASCII, so
byte-level and character-level containment coincide). -/
def goContains (s pat : String) : Bool := decide (pat.toList <:+: s.toList)

/-- Numeric value of a digit run. -/
def digitsVal (ds : List Char) : Nat :=
  ds.foldl (fun acc c => acc * 10 + (c.toNat - 48)) 0

/-- Rational addition, written out through `mkRat` (extensionally the
ordinary `Rat` addition; spelled this way so that concrete values reduce
by evaluation). -/
def qadd (a b : Rat) : Rat :=
  mkRat (a.num * (b.den : Int) + b.num * (a.den : Int)) (a.den * b.den)

/-- Rational multiplication through `mkRat` (extensionally the ordinary
`Rat` multiplication). -/
def qmul (a b : Rat) : Rat := mkRat (a.num * b.num) (a.den * b.den)

/-- `10^e` over the rationals, for an integer exponent. -/
def pow10 (e : Int) : Rat :=
  if 0 ≤ e then mkRat (((10 : Nat) ^ e.toNat : Nat) : Int) 1
  else mkRat 1 ((10 : Nat) ^ (-e).toNat)

/-- Exponent part of a decimal float literal (`[+-]?digits`, nothing
after); scales the mantissa accordingly. -/
def applyExpPart (mant : Rat) (r : List Char) : Option Rat :=
  let eneg := match r with
    | '-' :: _ => true
    | _ => false
  let r1 := match r with
    | '-' :: t => t
    | '+' :: t => t
    | t => t
  let eds := r1.takeWhile Char.isDigit
  if eds.isEmpty || !(r1.dropWhile Char.isDigit).isEmpty then none
  else
    some (qmul mant (pow10 (if eneg then -(digitsVal eds : Int) else (digitsVal eds : Int))))

/-- Models `strconv.ParseFloat` on the decimal fragment of its grammar:
optional sign, integer and/or fraction digits (at least one digit in
total), optional decimal exponent.  Hexadecimal floats, the `inf`/`nan`
forms, and overflow to ±Inf are outside the fragment this device
exchanges and are not modelled; the exact decimal value is returned as a
rational. -/
def goParseFloat (s : String) : Option Rat :=
  let l := s.toList
  let neg := match l with
    | '-' :: _ => true
    | _ => false
  let l1 := match l with
    | '-' :: r => r
    | '+' :: r => r
    | r => r
  let ip := l1.takeWhile Char.isDigit
  let l2 := l1.dropWhile Char.isDigit
  let fp := match l2 with
    | '.' :: r => r.takeWhile Char.isDigit
    | _ => []
  let l3 := match l2 with
    | '.' :: r => r.dropWhile Char.isDigit
    | r => r
  if ip.isEmpty && fp.isEmpty then none
  else
    let mant : Rat :=
      qadd (mkRat (digitsVal ip : Int) 1) (qmul (mkRat (digitsVal fp : Int) 1) (pow10 (-(fp.length : Int))))
    let res := match l3 with
      | [] => some mant
      | 'e' :: r => applyExpPart mant r
      | 'E' :: r => applyExpPart mant r
      | _ => none
    res.map fun v => if neg then -v else v

/-- One pass of the `for key, value := range stringResponse` loop of
`parsePressure`, with the iteration order given by `table`: the
description of the first key contained in `reading`. -/
def firstToken (table : List (String × String)) (reading : String) : Option String :=
  match table with
  | [] => none
  | (k, v) :: rest => if goContains reading k then some v else firstToken rest reading

/-- `parsePressure` of `readings.go`, with the map iteration order an
explicit parameter (Go iterates maps in unspecified order). -/
def parsePressureWith (table : List (String × String)) (reading : String) :
    Except GoError PressureReading :=
  match firstToken table reading with
  | some v => .ok ⟨0, v⟩
  | none =>
    match goParseFloat reading with
    | some value => .ok ⟨value, "OK"⟩
    | none => .error (.parseFloatErr reading)

/-- `parsePressure` at the source-order table. -/
def parsePressure (reading : String) : Except GoError PressureReading :=
  parsePressureWith stringResponse reading

/-- `GetPressure` of `readings.go`.  The channel guard is transcribed
exactly as written in the source: `if 1 < channel || channel > 6`. -/
def GetPressure (address : Int) (st : CommState) (channel : Int) :
    CommState × Except GoError PressureReading :=
  if 1 < channel ∨ channel > 6 then (st, .error (.invalidChannel 1 6 channel))
  else
    match Query address st ("PR" ++ intDecStr channel) with
    | (st1, .error e) => (st1, .error e)
    | (st1, .ok response) => (st1, parsePressure response)

/-- `GetPressureCombination` of `readings.go` (guard
`channel < 1 || 2 < channel`). -/
def GetPressureCombination (address : Int) (st : CommState) (channel : Int) :
    CommState × Except GoError PressureReading :=
  if channel < 1 ∨ 2 < channel then (st, .error (.invalidChannel 1 2 channel))
  else
    match Query address st ("PC" ++ intDecStr channel) with
    | (st1, .error e) => (st1, .error e)
    | (st1, .ok response) => (st1, parsePressure response)

/-- Splitting on a separator character, accumulator style. -/
def splitOnCharAux (sep : Char) : List Char → List Char → List (List Char)
  | [], acc => [acc.reverse]
  | c :: rest, acc =>
    if c = sep then acc.reverse :: splitOnCharAux sep rest []
    else splitOnCharAux sep rest (c :: acc)

/-- Models Go `strings.Split(s, " ")`: splits around every single space,
keeping empty fields, and yields `[s]` when there is no space. -/
def goSplitSpace (s : String) : List String :=
  (splitOnCharAux ' ' s.toList []).map String.mk

/-- Result of a Go call that can also fail with a runtime fault
(out-of-range slice index) instead of returning. -/
inductive GoResult (α : Type) where
  | ok (a : α)
  | error (e : GoError)
  | panicked (msg : String)
  deriving DecidableEq

/-- The loop of `GetPressures`: parse each field, then execute
`pressures[idx] = pressure`, which faults when `idx` is past the end of
the fixed six-element slice. -/
def przLoop (fields : List String) (idx : Nat) (acc : List PressureReading) :
    GoResult (List PressureReading) :=
  match fields with
  | [] => .ok acc
  | f :: rest =>
    match parsePressure f with
    | .error e => .error e
    | .ok p =>
      if idx < acc.length then przLoop rest (idx + 1) (acc.set idx p)
      else .panicked "index out of range"

/-- `GetPressures` of `readings.go`: queries `PRZ`, splits the response
on single spaces, and runs the write loop over a six-element slice of
zero-valued readings. -/
def GetPressures (address : Int) (st : CommState) :
    CommState × GoResult (List PressureReading) :=
  match Query address st "PRZ" with
  | (st1, .error e) => (st1, .error e)
  | (st1, .ok response) =>
    (st1, przLoop (goSplitSpace response) 0 (List.replicate 6 ⟨0, ""⟩))

/-- The `valid := []int{1, 3, 5}` list each control command checks with
`slices.Contains`. -/
def validControlChannels : List Int := [1, 3, 5]

/-- Models `fmt.Sprintf("%.2E", q)` — scientific notation with two
fraction digits and a signed two-digit exponent — for magnitudes between
1e-30 and 1e30; every value this driver formats is well inside that
range.  Ties round half away from zero; the driver never formats a value
within rounding distance of a tie. -/
def formatE2 (q : Rat) : String :=
  if q = 0 then "0.00E+00"
  else
    let a := if q < 0 then -q else q
    let e0 : Int :=
      match (List.range 61).find? (fun i =>
          decide (pow10 ((i : Int) - 30) ≤ a) && decide (a < pow10 ((i : Int) - 29))) with
      | some i => (i : Int) - 30
      | none => 0
    let x : Rat := qadd (qmul a (pow10 (2 - e0))) (mkRat 1 2)
    let r0 : Int := x.num / (x.den : Int)
    let r : Int := if r0 ≥ 1000 then 100 else r0
    let e : Int := if r0 ≥ 1000 then e0 + 1 else e0
    let rn := r.toNat
    let mant := String.mk [Nat.digitChar (rn / 100), '.',
      Nat.digitChar (rn / 10 % 10), Nat.digitChar (rn % 10)]
    let esign := if e < 0 then "-" else "+"
    let en := e.natAbs
    let estr := if en < 10 then String.mk ['0', Nat.digitChar en]
      else String.mk (natDigitsAux 64 en)
    (if q < 0 then "-" else "") ++ mant ++ "E" ++ esign ++ estr

/-- `GetTarget` of `control.go`: queries the control set point `CSP<n>`
and parses it as a float. -/
def GetTarget (address : Int) (st : CommState) (channel : Int) :
    CommState × Except GoError Rat :=
  if !(validControlChannels.contains channel) then
    (st, .error (.invalidChannelControl channel))
  else
    match Query address st ("CSP" ++ intDecStr channel) with
    | (st1, .error e) => (st1, .error e)
    | (st1, .ok response) =>
      match goParseFloat response with
      | some v => (st1, .ok v)
      | none => (st1, .error (.parseFloatErr response))

/-- `SetProtectionTarget` of `control.go`.  The range guard is
transcribed exactly as in the source:
`if target != 0 && target < 1e-5 && 1e-2 < target`. -/
def SetProtectionTarget (address : Int) (st : CommState) (channel : Int) (target : Rat) :
    CommState × Except GoError Unit :=
  if !(validControlChannels.contains channel) then
    (st, .error (.invalidChannelControl channel))
  else if target ≠ 0 ∧ target < mkRat 1 100000 ∧ mkRat 1 100 < target then
    (st, .error (.invalidPRO target))
  else
    Set address st ("PRO" ++ intDecStr channel) (formatE2 target)

/-- `SetHysterisesTarget` of `control.go`: reads the live control set
point via `GetTarget`, validates
`if target < 1.2*CSP || 0.03 < target` (1.2 = 6/5, 0.03 = 3/100 exactly),
then dispatches the `CHP<n>` set command. -/
def SetHysterisesTarget (address : Int) (st : CommState) (channel : Int) (target : Rat) :
    CommState × Except GoError Unit :=
  if !(validControlChannels.contains channel) then
    (st, .error (.invalidChannelControl channel))
  else
    match GetTarget address st channel with
    | (st1, .error e) => (st1, .error e)
    | (st1, .ok CSP) =>
      if target < qmul (mkRat 6 5) CSP ∨ mkRat 3 100 < target then
        (st1, .error (.invalidRangeExp (qmul (mkRat 6 5) CSP) (mkRat 3 100) target))
      else
        Set address st1 ("CHP" ++ intDecStr channel) (formatE2 target)

/-- Modelled from the spec: the response-frame grammar anchored against
the full body — the body is exactly `@<digits>(ACK|NAK)<anything>;FF`,
with nothing before the `@` and nothing after the `;FF`.  Defined only
to compare the spec's anchored reading of `decodeResponse` with the
source's unanchored `FindStringSubmatch`. -/
def anchoredFrameMatch (s : String) : Bool :=
  match s.toList with
  | '@' :: rest =>
    let ds := rest.takeWhile Char.isDigit
    (!ds.isEmpty) &&
      (match rest.dropWhile Char.isDigit with
       | 'A' :: 'C' :: 'K' :: r3 => decide ([';', 'F', 'F'] <:+ r3)
       | 'N' :: 'A' :: 'K' :: r3 => decide ([';', 'F', 'F'] <:+ r3)
       | _ => false)
  | _ => false

/-- Independent field-by-field decoding in field order, failing with the
first field's error (the spec's description of the `GetPressures` loop);
compared against the loop embedding `przLoop` below. -/
def mapMParse : List String → Except GoError (List PressureReading)
  | [] => .ok []
  | f :: fs =>
    match parsePressure f with
    | .error e => .error e
    | .ok p =>
      match mapMParse fs with
      | .error e => .error e
      | .ok l => .ok (p :: l)

/-- A permutation of `stringResponse` with the `CTRL_OFF` entry moved to
the front — one of the iteration orders a Go map range may produce. -/
def stringResponseAlt : List (String × String) := [
  ("CTRL_OFF", "CC or HC if OFF in controlled state"),
  ("LO<", "Pressure lower than minimum"),
  ("ATM", "PR when pressure is lower than 450 Torr"),
  ("OFF", "Cold cathode HV if OFF, or HC/PR/CP power if OFF"),
  ("WAIT", "CC or HC startup delay"),
  ("LowEmis", "HC OFF due to lowe emission"),
  ("PROT_OFF", "CC or HC if OFF in protected state"),
  ("MISCONN", "Sensor improperly connected, or broken filament (PR, CP only)"),
  ("NOGAUGE", "Controller unable to determine sensor connection"),
  ("NO_GAUGE", "Controller unable to determine sensor connection"),
  ("COMB_DISABLED", "Combination disabled")]

/-! ### Helper lemmas -/

/-- Reduction of `Query` when connected, a response is scripted, and the
regex match yields the request's own (zero-padded) address. -/
theorem Query_ok (address : Int) (st : CommState) (command : String)
    (r : String) (rest : List String) (v : String)
    (hconn : st.connected = true) (hresp : st.responses = r :: rest)
    (hm : findMatch r = some (pad3 address, v)) :
    Query address st command =
      (⟨true, st.writes ++ ["@" ++ pad3 address ++ command ++ "?;FF"], rest⟩, .ok v) := by
  unfold Query
  rw [hconn, hresp]
  simp [hm]

/-- Whenever the device is connected, `Set` writes exactly one frame —
the encoded set command — regardless of what the response holds. -/
theorem Set_writes (address : Int) (st : CommState) (command parameter : String)
    (hconn : st.connected = true) :
    (Set address st command parameter).1.writes =
      st.writes ++ ["@" ++ pad3 address ++ command ++ "!" ++ parameter ++ ";FF"] := by
  unfold Set
  rw [hconn]
  cases st.responses with
  | nil => simp
  | cons r rest =>
    cases hm : findMatch r with
    | none => simp [hm]
    | some ap =>
      obtain ⟨a, p⟩ := ap
      by_cases ha : a = pad3 address
      · by_cases hp : p = parameter <;> simp [hm, ha, hp]
      · simp [hm, ha]

/-- `firstToken` finds nothing exactly when no key of the table occurs
in the reading. -/
theorem firstToken_eq_none_iff (table : List (String × String)) (s : String) :
    firstToken table s = none ↔ ∀ kv ∈ table, goContains s kv.1 = false := by
  induction table with
  | nil => simp [firstToken]
  | cons kv rest ih =>
    obtain ⟨k, v⟩ := kv
    by_cases hk : goContains s k
    · simp [firstToken, hk]
    · simp only [firstToken]
      rw [if_neg (by simp [hk])]
      rw [ih]
      constructor
      · rintro h kv hkv
        rcases List.mem_cons.mp hkv with h1 | h1
        · subst h1; simpa using hk
        · exact h kv h1
      · intro h kv hkv
        exact h kv (List.mem_cons_of_mem _ hkv)

/-- A successful `firstToken` lookup returns the description of some
contained key. -/
theorem firstToken_eq_some (table : List (String × String)) (s v : String)
    (h : firstToken table s = some v) :
    ∃ kv ∈ table, goContains s kv.1 = true ∧ kv.2 = v := by
  induction table with
  | nil => simp [firstToken] at h
  | cons kv rest ih =>
    obtain ⟨k, d⟩ := kv
    by_cases hk : goContains s k
    · refine ⟨(k, d), List.mem_cons_self _ _, hk, ?_⟩
      simp [firstToken, hk] at h
      exact h
    · simp only [firstToken] at h
      rw [if_neg (by simp [hk])] at h
      obtain ⟨kv, hmem, hc, he⟩ := ih h
      exact ⟨kv, List.mem_cons_of_mem _ hmem, hc, he⟩

/-- When every key of the table that occurs in the reading carries the
same description `d`, and at least one key occurs, the parse result is
the symbolic reading `⟨0, d⟩` — independently of the table's order. -/
theorem parsePressureWith_agree (table : List (String × String)) (s d : String)
    (hall : ∀ kv ∈ table, goContains s kv.1 = true → kv.2 = d)
    (hex : ∃ kv ∈ table, goContains s kv.1 = true) :
    parsePressureWith table s = .ok ⟨0, d⟩ := by
  unfold parsePressureWith
  cases hft : firstToken table s with
  | none =>
    rw [firstToken_eq_none_iff] at hft
    obtain ⟨kv, hmem, hc⟩ := hex
    exact absurd (hft kv hmem) (by simp [hc])
  | some v =>
    obtain ⟨kv, hmem, hc, he⟩ := firstToken_eq_some table s v hft
    rw [show v = d from he ▸ hall kv hmem hc]

/-- `mapMParse` preserves the field count on success. -/
theorem mapMParse_length (fields : List String) (l : List PressureReading)
    (h : mapMParse fields = .ok l) : l.length = fields.length := by
  induction fields generalizing l with
  | nil => simp [mapMParse] at h; simp [← h]
  | cons f fs ih =>
    simp only [mapMParse] at h
    cases hp : parsePressure f with
    | error e => rw [hp] at h; exact absurd h (by simp)
    | ok p =>
      rw [hp] at h
      cases hm : mapMParse fs with
      | error e => rw [hm] at h; exact absurd h (by simp)
      | ok l2 =>
        rw [hm] at h
        cases h
        simp [ih l2 hm]

/-- The `GetPressures` write loop agrees with independent field-by-field
decoding when the fields exactly fill the remaining slice capacity. -/
theorem przLoop_exact (fields : List String) (idx : Nat) (acc : List PressureReading)
    (h : idx + fields.length = acc.length) :
    przLoop fields idx acc =
      match mapMParse fields with
      | .error e => .error e
      | .ok l => .ok (acc.take idx ++ l) := by
  induction fields generalizing idx acc with
  | nil =>
    simp only [przLoop, mapMParse]
    simp only [List.length_nil] at h
    rw [List.take_of_length_le (by omega)]
    simp
  | cons f fs ih =>
    simp only [przLoop, mapMParse]
    cases hp : parsePressure f with
    | error e => simp
    | ok p =>
      have hidx : idx < acc.length := by
        simp only [List.length_cons] at h
        omega
      dsimp only
      rw [if_pos hidx]
      rw [ih (idx + 1) (acc.set idx p)
        (by simp only [List.length_set, List.length_cons] at *; omega)]
      cases hm : mapMParse fs with
      | error e => simp
      | ok l =>
        dsimp only
        congr 1
        rw [List.set_eq_take_cons_drop p hidx, List.take_append_eq_append_take]
        have h1 : (acc.take idx).length = idx := by
          rw [List.length_take]
          omega
        rw [List.take_of_length_le (by rw [h1]; omega), h1]
        simp

/-- The `GetPressures` write loop reaches the out-of-range slice write
exactly after one more successfully parsed field than the slice has
room for. -/
theorem przLoop_panic (fields : List String) (idx : Nat) (acc : List PressureReading)
    (hle : idx ≤ acc.length) (hlt : acc.length < idx + fields.length)
    (hok : ∀ f ∈ fields.take (acc.length - idx + 1), (parsePressure f).isOk = true) :
    przLoop fields idx acc = .panicked "index out of range" := by
  induction fields generalizing idx acc with
  | nil =>
    simp only [List.length_nil] at hlt
    omega
  | cons f fs ih =>
    have hf := hok f (by rw [List.take_succ_cons]; exact List.mem_cons_self _ _)
    obtain ⟨p, hp⟩ : ∃ p, parsePressure f = .ok p := by
      cases hcase : parsePressure f with
      | error e => rw [hcase] at hf; exact absurd hf (by simp [Except.isOk, Except.toBool])
      | ok p => exact ⟨p, rfl⟩
    simp only [przLoop, hp]
    by_cases hidx : idx < acc.length
    · rw [if_pos hidx]
      refine ih (idx + 1) (acc.set idx p) ?_ ?_ ?_
      · simp only [List.length_set]
        omega
      · simp only [List.length_set]
        simp only [List.length_cons] at hlt
        omega
      · intro f' hf'
        simp only [List.length_set] at hf'
        have heq : acc.length - idx + 1 = acc.length - (idx + 1) + 1 + 1 := by omega
        apply hok
        rw [heq, List.take_succ_cons]
        exact List.mem_cons_of_mem _ hf'
    · rw [if_neg hidx]

/-- `Set` can fail in several ways, but never with `InvalidPRO`. -/
theorem Set_snd_ne_invalidPRO (address : Int) (st : CommState) (command parameter : String)
    (g : Rat) : (Set address st command parameter).2 ≠ .error (.invalidPRO g) := by
  unfold Set
  by_cases hc : (!st.connected) = true
  · rw [if_pos hc]
    simp
  · rw [if_neg hc]
    cases st.responses with
    | nil => simp
    | cons r rest =>
      cases hm : findMatch r with
      | none => simp [hm]
      | some ap =>
        obtain ⟨a, p⟩ := ap
        by_cases ha : a = pad3 address
        · by_cases hp : p = parameter <;> simp [hm, ha, hp]
        · simp [hm, ha]

/-! ### Claim theorems -/

set_option maxRecDepth 16000

/-- C1: the spec says `GetPressure` accepts exactly channels 1..6 and
`GetPressureCombination` exactly channels 1..2.  The source guard of
`GetPressure` is `if 1 < channel || channel > 6`, an evident slip for
`channel < 1`: it rejects the valid channels 2..6 with `InvalidChannel`
(whose own message says "between 1 and 6") and accepts every channel
≤ 1, issuing for instance the `PR0` query for channel 0.  The
combination guard is correct.  This theorem evaluates the code at those
inputs. -/
theorem c1_getPressure_channel_guard :
    (GetPressure 48 ⟨true, [], ["@048ACK1.00E-03;FF"]⟩ 2).2 =
      .error (.invalidChannel 1 6 2) ∧
    (GetPressure 48 ⟨true, [], ["@048ACK1.00E-03;FF"]⟩ 6).2 =
      .error (.invalidChannel 1 6 6) ∧
    (GetPressure 48 ⟨true, [], ["@048ACK1.00E-03;FF"]⟩ 0).1.writes = ["@048PR0?;FF"] ∧
    (GetPressure 48 ⟨true, [], ["@048ACK1.00E-03;FF"]⟩ 1).2 = .ok ⟨mkRat 1 1000, "OK"⟩ ∧
    (GetPressureCombination 48 ⟨true, [], ["@048ACK1.00E-03;FF"]⟩ 2).2 =
      .ok ⟨mkRat 1 1000, "OK"⟩ ∧
    (GetPressureCombination 48 ⟨true, [], []⟩ 3).2 = .error (.invalidChannel 1 2 3) ∧
    (GetPressureCombination 48 ⟨true, [], []⟩ 0).2 = .error (.invalidChannel 1 2 0) := by
  decide

/-- C4: the spec says nonzero protection targets outside
[1e-5, 1e-2] are rejected with `InvalidPRO` before any set command is
dispatched.  The source guard
`if target != 0 && target < 1e-5 && 1e-2 < target` uses `&&` where the
documented range (the function's own doc comment) requires `||`, so it
is unsatisfiable: `InvalidPRO` is unreachable, and out-of-range targets
such as 1e-8 (below the range) or 1 (above it) are formatted and
dispatched to the device. -/
theorem c4_invalidPRO_unreachable :
    (∀ (address : Int) (st : CommState) (channel : Int) (target g : Rat),
      (SetProtectionTarget address st channel target).2 ≠ .error (.invalidPRO g)) ∧
    SetProtectionTarget 48 ⟨true, [], ["@048ACK1.00E-08;FF"]⟩ 1 (mkRat 1 100000000) =
      (⟨true, ["@048PRO1!1.00E-08;FF"], []⟩, .ok ()) ∧
    (SetProtectionTarget 48 ⟨true, [], ["@048ACK1.00E+00;FF"]⟩ 1 1).2 = .ok () := by
  refine ⟨?_, by decide, by decide⟩
  intro address st channel target g
  unfold SetProtectionTarget
  by_cases hvc : (!validControlChannels.contains channel) = true
  · rw [if_pos hvc]
    simp
  · rw [if_neg hvc]
    rw [if_neg ?_]
    · exact Set_snd_ne_invalidPRO address st ("PRO" ++ intDecStr channel) (formatE2 target) g
    · rintro ⟨h1, h2, h3⟩
      exact absurd (lt_trans h3 h2) (by decide)

/-- C5 counterexample: when not connected, `Query` fails with the typed
`ErrNotConnected`, but `Set` fails with the ad-hoc
`fmt.Errorf("no MKS937B is connected")` value — not the same typed
error, contrary to the claim. -/
theorem c5_counterexample :
    (Set 48 ⟨false, [], []⟩ "BR" "9600").2 = .error (.errorf "no MKS937B is connected") ∧
    (Query 48 ⟨false, [], []⟩ "BR").2 = .error .errNotConnected ∧
    GoError.errorf "no MKS937B is connected" ≠ GoError.errNotConnected := by
  decide

/-- C5 (amended): whenever the device is not connected, `Query` fails
with the typed `ErrNotConnected` and `Set` fails with the ad-hoc error
`fmt.Errorf("no MKS937B is connected")` (a distinct error value), and
neither performs any transport write — the state is returned
unchanged. -/
theorem c5_notConnected (address : Int) (st : CommState) (command parameter : String)
    (h : st.connected = false) :
    Query address st command = (st, .error .errNotConnected) ∧
    Set address st command parameter = (st, .error (.errorf "no MKS937B is connected")) := by
  unfold Query Set
  rw [h]
  simp

/-- C5 witness: the amended theorem at a concrete disconnected state. -/
theorem c5_notConnected_witness :
    (CommState.mk false ["w"] []).connected = false ∧
    Query 7 ⟨false, ["w"], []⟩ "PR1" = (⟨false, ["w"], []⟩, .error .errNotConnected) ∧
    Set 7 ⟨false, ["w"], []⟩ "PR1" "x" = (⟨false, ["w"], []⟩, .error (.errorf "no MKS937B is connected")) :=
  ⟨rfl, (c5_notConnected 7 ⟨false, ["w"], []⟩ "PR1" "x" rfl).1,
    (c5_notConnected 7 ⟨false, ["w"], []⟩ "PR1" "x" rfl).2⟩

/-- C2: after the response matches the frame pattern, `Query` fails with
`UnexpectedAddress` exactly when the decoded address differs from the
zero-padded request address and otherwise returns the captured group
verbatim; `Set` additionally fails with `UnexpectedParameter` exactly
when the echoed parameter is not string-equal to the one sent, and
succeeds otherwise. -/
theorem c2_postmatch (address : Int) (st : CommState) (command parameter : String)
    (r : String) (rest : List String) (a p : String)
    (hconn : st.connected = true) (hresp : st.responses = r :: rest)
    (hm : findMatch r = some (a, p)) :
    ((Query address st command).2 =
      if a = pad3 address then .ok p
      else .error (.unexpectedAddress (pad3 address) a)) ∧
    ((Set address st command parameter).2 =
      if a = pad3 address then
        (if p = parameter then .ok ()
         else .error (.unexpectedParameter parameter p))
      else .error (.unexpectedAddress (pad3 address) a)) := by
  constructor
  · unfold Query
    rw [hconn, hresp]
    by_cases ha : a = pad3 address <;> simp [hm, ha]
  · unfold Set
    rw [hconn, hresp]
    by_cases ha : a = pad3 address
    · by_cases hp : p = parameter <;> simp [hm, ha, hp]
    · simp [hm, ha]

/-- C2 witness: the theorem at a mismatched address (`GetAddress`-style
scenario from the spec: request address 048, response address 099) and
at a matching address with matching and mismatched echoes. -/
theorem c2_postmatch_witness :
    findMatch "@099ACK250;FF" = some ("099", "250") ∧
    ((Query 48 ⟨true, [], ["@099ACK250;FF"]⟩ "AD").2 =
      if "099" = pad3 48 then .ok "250"
      else .error (.unexpectedAddress (pad3 48) "099")) ∧
    ((Set 48 ⟨true, [], ["@048ACK9600;FF"]⟩ "BR" "9600").2 =
      if "048" = pad3 48 then
        (if "9600" = "9600" then .ok ()
         else .error (.unexpectedParameter "9600" "9600"))
      else .error (.unexpectedAddress (pad3 48) "048")) ∧
    ((Set 48 ⟨true, [], ["@048ACK19200;FF"]⟩ "BR" "9600").2 =
      if "048" = pad3 48 then
        (if "19200" = "9600" then .ok ()
         else .error (.unexpectedParameter "9600" "19200"))
      else .error (.unexpectedAddress (pad3 48) "048")) :=
  ⟨by decide,
    (c2_postmatch 48 ⟨true, [], ["@099ACK250;FF"]⟩ "AD" "" "@099ACK250;FF" [] "099" "250"
      rfl rfl (by decide)).1,
    (c2_postmatch 48 ⟨true, [], ["@048ACK9600;FF"]⟩ "BR" "9600" "@048ACK9600;FF" [] "048" "9600"
      rfl rfl (by decide)).2,
    (c2_postmatch 48 ⟨true, [], ["@048ACK19200;FF"]⟩ "BR" "9600" "@048ACK19200;FF" [] "048" "19200"
      rfl rfl (by decide)).2⟩

/-- C3 counterexample: a body with extra text before the `@` does not
match the anchored frame grammar the claim describes, yet `Query`
accepts it — and even succeeds — because the source matches the pattern
unanchored via `FindStringSubmatch`. -/
theorem c3_counterexample :
    anchoredFrameMatch "x@001ACK5;FF" = false ∧
    (Query 1 ⟨true, [], ["x@001ACK5;FF"]⟩ "PR1").2 = .ok "5" := by
  decide

/-- C3 (amended): `Query` and `Set` fail with `UnexpectedReply` exactly
when no substring of the response body matches
`@<digits>(ACK|NAK)<lazy>;FF` — the match is unanchored, so extra text
before the `@` or after the `;FF` is tolerated — and frames carrying
either the ACK or the NAK tag are accepted as well-formed. -/
theorem c3_unanchored_reply_check :
    (∀ (address : Int) (st : CommState) (command parameter r : String) (rest : List String),
      st.connected = true → st.responses = r :: rest →
      (((∃ s g, (Query address st command).2 = .error (.unexpectedReply s g)) ↔
          findMatch r = none) ∧
       ((∃ s g, (Set address st command parameter).2 = .error (.unexpectedReply s g)) ↔
          findMatch r = none))) ∧
    findMatch "@001ACK5;FF" = some ("001", "5") ∧
    findMatch "@001NAK5;FF" = some ("001", "5") ∧
    findMatch "abc@001ACK5;FFxyz" = some ("001", "5") ∧
    anchoredFrameMatch "abc@001ACK5;FFxyz" = false := by
  refine ⟨?_, by decide, by decide, by decide, by decide⟩
  intro address st command parameter r rest hconn hresp
  constructor
  · unfold Query
    rw [hconn, hresp]
    cases hm : findMatch r with
    | none => simp [hm]
    | some ap =>
      obtain ⟨a, p⟩ := ap
      by_cases ha : a = pad3 address <;> simp [hm, ha]
  · unfold Set
    rw [hconn, hresp]
    cases hm : findMatch r with
    | none => simp [hm]
    | some ap =>
      obtain ⟨a, p⟩ := ap
      by_cases ha : a = pad3 address
      · by_cases hp : p = parameter <;> simp [hm, ha, hp]
      · simp [hm, ha]

/-- C3 witness: the amended theorem at a garbage body (no match, so
`UnexpectedReply`) for both `Query` and `Set`. -/
theorem c3_unanchored_reply_check_witness :
    ((∃ s g, (Query 48 ⟨true, [], ["garbage"]⟩ "PR1").2 =
        .error (.unexpectedReply s g)) ↔ findMatch "garbage" = none) ∧
    ((∃ s g, (Set 48 ⟨true, [], ["garbage"]⟩ "BR" "9600").2 =
        .error (.unexpectedReply s g)) ↔ findMatch "garbage" = none) :=
  ⟨(c3_unanchored_reply_check.1 48 ⟨true, [], ["garbage"]⟩ "PR1" "9600" "garbage" []
      rfl rfl).1,
   (c3_unanchored_reply_check.1 48 ⟨true, [], ["garbage"]⟩ "BR" "9600" "garbage" []
      rfl rfl).2⟩

/-- C6: on a response whose space-split yields exactly six fields,
`GetPressures` agrees with independent field-by-field decoding in field
order (`mapMParse`): if every field decodes it returns exactly those six
readings, and if any field fails it returns that first failing field's
error with no partial result. -/
theorem c6_getPressures_six_fields (address : Int) (st : CommState) (r : String)
    (rest : List String) (v : String)
    (hconn : st.connected = true) (hresp : st.responses = r :: rest)
    (hm : findMatch r = some (pad3 address, v))
    (hlen : (goSplitSpace v).length = 6) :
    (∀ l, mapMParse (goSplitSpace v) = .ok l →
      (GetPressures address st).2 = .ok l ∧ l.length = 6) ∧
    (∀ e, mapMParse (goSplitSpace v) = .error e →
      (GetPressures address st).2 = .error e) := by
  have hred : (GetPressures address st).2 =
      przLoop (goSplitSpace v) 0 (List.replicate 6 ⟨0, ""⟩) := by
    unfold GetPressures
    rw [Query_ok address st "PRZ" r rest v hconn hresp hm]
  have hex := przLoop_exact (goSplitSpace v) 0 (List.replicate 6 ⟨0, ""⟩)
    (by simp [hlen])
  constructor
  · intro l hl
    refine ⟨?_, by rw [mapMParse_length _ _ hl, hlen]⟩
    rw [hred, hex, hl]
    simp
  · intro e he
    rw [hred, hex, he]

/-- C7: the reading decoder returns the symbolic reading `⟨0, d⟩` for a
contained token's description `d` whenever the body contains a known
token; otherwise it returns `⟨value, "OK"⟩` when the body parses as a
float, and the parse error otherwise — together with the spec's four
concrete decode-table examples. -/
theorem c7_parse_decode (s : String) :
    ((∃ kv ∈ stringResponse, goContains s kv.1 = true) →
      ∃ kv ∈ stringResponse, goContains s kv.1 = true ∧ parsePressure s = .ok ⟨0, kv.2⟩) ∧
    ((∀ kv ∈ stringResponse, goContains s kv.1 = false) →
      (∀ v, goParseFloat s = some v → parsePressure s = .ok ⟨v, "OK"⟩) ∧
      (goParseFloat s = none → parsePressure s = .error (.parseFloatErr s))) ∧
    parsePressure "4.50E-03" = .ok ⟨mkRat 9 2000, "OK"⟩ ∧
    parsePressure "LO<" = .ok ⟨0, "Pressure lower than minimum"⟩ ∧
    parsePressure "NOGAUGE" = .ok ⟨0, "Controller unable to determine sensor connection"⟩ ∧
    parsePressure "xyz" = .error (.parseFloatErr "xyz") := by
  refine ⟨?_, ?_, by decide, by decide, by decide, by decide⟩
  · intro hex
    cases hft : firstToken stringResponse s with
    | none =>
      exfalso
      rw [firstToken_eq_none_iff] at hft
      obtain ⟨kv, hmem, hc⟩ := hex
      exact absurd (hft kv hmem) (by simp [hc])
    | some d =>
      obtain ⟨kv, hmem, hc, he⟩ := firstToken_eq_some stringResponse s d hft
      refine ⟨kv, hmem, hc, ?_⟩
      unfold parsePressure parsePressureWith
      rw [hft, he]
  · intro hnone
    have hft : firstToken stringResponse s = none := (firstToken_eq_none_iff _ _).mpr hnone
    constructor
    · intro v hv
      unfold parsePressure parsePressureWith
      rw [hft, hv]
    · intro hv
      unfold parsePressure parsePressureWith
      rw [hft, hv]

/-- C7 witness: the theorem applied at the symbolic input `LO<` and at
the non-numeric input `xyz`. -/
theorem c7_parse_decode_witness :
    ((∃ kv ∈ stringResponse, goContains "LO<" kv.1 = true) ∧
      ∃ kv ∈ stringResponse, goContains "LO<" kv.1 = true ∧
        parsePressure "LO<" = .ok ⟨0, kv.2⟩) ∧
    ((∀ kv ∈ stringResponse, goContains "xyz" kv.1 = false) ∧
      (goParseFloat "xyz" = none ∧
        parsePressure "xyz" = .error (.parseFloatErr "xyz"))) :=
  ⟨⟨by decide, (c7_parse_decode "LO<").1 (by decide)⟩,
   ⟨by decide, by decide, ((c7_parse_decode "xyz").2.1 (by decide)).2 (by decide)⟩⟩

/-- C8: `SetHysterisesTarget`, on a control channel, first queries the
live control set point (`CSP<n>`), then fails with `InvalidRangeExp`
exactly when `target < 1.2·CSP` or `target > 0.03` — having written only
the CSP query, no set — and otherwise dispatches the `CHP<n>` set frame
with the `%.2E`-formatted target. -/
theorem c8_setHysterises (address : Int) (st : CommState) (channel : Int)
    (target CSP : Rat) (r : String) (rest : List String) (v : String)
    (hch : channel = 1 ∨ channel = 3 ∨ channel = 5)
    (hconn : st.connected = true) (hresp : st.responses = r :: rest)
    (hm : findMatch r = some (pad3 address, v))
    (hv : goParseFloat v = some CSP) :
    (target < qmul (mkRat 6 5) CSP ∨ mkRat 3 100 < target →
      SetHysterisesTarget address st channel target =
        (⟨true, st.writes ++ ["@" ++ pad3 address ++ ("CSP" ++ intDecStr channel) ++ "?;FF"], rest⟩,
         .error (.invalidRangeExp (qmul (mkRat 6 5) CSP) (mkRat 3 100) target))) ∧
    (¬(target < qmul (mkRat 6 5) CSP ∨ mkRat 3 100 < target) →
      (SetHysterisesTarget address st channel target).1.writes =
        st.writes ++ ["@" ++ pad3 address ++ ("CSP" ++ intDecStr channel) ++ "?;FF",
          "@" ++ pad3 address ++ ("CHP" ++ intDecStr channel) ++ "!" ++ formatE2 target ++ ";FF"]) := by
  have hcontains : validControlChannels.contains channel = true := by
    rcases hch with h | h | h <;> subst h <;> rfl
  have hgt : GetTarget address st channel =
      (⟨true, st.writes ++ ["@" ++ pad3 address ++ ("CSP" ++ intDecStr channel) ++ "?;FF"], rest⟩,
       .ok CSP) := by
    unfold GetTarget
    rw [hcontains]
    rw [Query_ok address st ("CSP" ++ intDecStr channel) r rest v hconn hresp hm]
    simp [hv]
  unfold SetHysterisesTarget
  rw [hcontains]
  rw [hgt]
  constructor
  · intro hcond
    simp only [Bool.not_true, if_neg (by simp : ¬(false = true))]
    rw [if_pos hcond]
  · intro hcond
    simp only [Bool.not_true, if_neg (by simp : ¬(false = true))]
    rw [if_neg hcond]
    rw [Set_writes address
      ⟨true, st.writes ++ ["@" ++ pad3 address ++ ("CSP" ++ intDecStr channel) ++ "?;FF"], rest⟩
      ("CHP" ++ intDecStr channel) (formatE2 target) rfl]
    simp

/-- C8 witness: with the device reporting CSP = 1e-3, a hysteresis
target of 1.0e-3 fails validation (below 1.2·CSP) after only the CSP
query was written, while 1.4e-3 passes and the CHP set frame is
dispatched. -/
theorem c8_setHysterises_witness :
    goParseFloat "1.00E-03" = some (mkRat 1 1000) ∧
    (mkRat 1 1000 < qmul (mkRat 6 5) (mkRat 1 1000) ∨ mkRat 3 100 < mkRat 1 1000) ∧
    SetHysterisesTarget 48 ⟨true, [], ["@048ACK1.00E-03;FF"]⟩ 1 (mkRat 1 1000) =
      (⟨true, [] ++ ["@" ++ pad3 48 ++ ("CSP" ++ intDecStr 1) ++ "?;FF"], []⟩,
       .error (.invalidRangeExp (qmul (mkRat 6 5) (mkRat 1 1000)) (mkRat 3 100) (mkRat 1 1000))) ∧
    ¬(mkRat 7 5000 < qmul (mkRat 6 5) (mkRat 1 1000) ∨ mkRat 3 100 < mkRat 7 5000) ∧
    (SetHysterisesTarget 48 ⟨true, [], ["@048ACK1.00E-03;FF", "@048ACK1.40E-03;FF"]⟩ 1
        (mkRat 7 5000)).1.writes =
      [] ++ ["@" ++ pad3 48 ++ ("CSP" ++ intDecStr 1) ++ "?;FF",
        "@" ++ pad3 48 ++ ("CHP" ++ intDecStr 1) ++ "!" ++ formatE2 (mkRat 7 5000) ++ ";FF"] :=
  ⟨by decide,
   Or.inl (by decide),
   (c8_setHysterises 48 ⟨true, [], ["@048ACK1.00E-03;FF"]⟩ 1 (mkRat 1 1000) (mkRat 1 1000)
      "@048ACK1.00E-03;FF" [] "1.00E-03" (Or.inl rfl) rfl rfl (by decide)
      (by decide)).1 (Or.inl (by decide)),
   by decide,
   (c8_setHysterises 48 ⟨true, [], ["@048ACK1.00E-03;FF", "@048ACK1.40E-03;FF"]⟩ 1
      (mkRat 7 5000) (mkRat 1 1000) "@048ACK1.00E-03;FF" ["@048ACK1.40E-03;FF"] "1.00E-03"
      (Or.inl rfl) rfl rfl (by decide) (by decide)).2
      (by decide)⟩

/-- The source-order table and the CTRL_OFF-first table hold the same
entries: they are two iteration orders of the same Go map. -/
theorem stringResponse_perm_alt : stringResponse.Perm stringResponseAlt := by
  decide

/-- C9 counterexample: the input `CTRL_OFF` contains two distinct table
tokens, `CTRL_OFF` and `OFF`, whose descriptions differ, and two
iteration orders of the same table decode it to different statuses — the
decoder is not independent of the map iteration order. -/
theorem c9_counterexample :
    stringResponse.Perm stringResponseAlt ∧
    ("OFF", "Cold cathode HV if OFF, or HC/PR/CP power if OFF") ∈ stringResponse ∧
    ("CTRL_OFF", "CC or HC if OFF in controlled state") ∈ stringResponse ∧
    goContains "CTRL_OFF" "OFF" = true ∧
    goContains "CTRL_OFF" "CTRL_OFF" = true ∧
    ("Cold cathode HV if OFF, or HC/PR/CP power if OFF" : String) ≠
      "CC or HC if OFF in controlled state" ∧
    parsePressureWith stringResponse "CTRL_OFF" =
      .ok ⟨0, "Cold cathode HV if OFF, or HC/PR/CP power if OFF"⟩ ∧
    parsePressureWith stringResponseAlt "CTRL_OFF" =
      .ok ⟨0, "CC or HC if OFF in controlled state"⟩ :=
  ⟨stringResponse_perm_alt, by decide, by decide, by decide, by decide, by decide,
   by decide, by decide⟩

/-- C9 (amended): the decoder is order-independent exactly on the
unambiguous inputs — for any two iteration orders of the same table, if
all tokens contained in the input carry one description, both orders
decode the input identically; inputs such as `CTRL_OFF`, which contain
two tokens with different descriptions, decode differently under
different orders (see the counterexample). -/
theorem c9_order_independence (t1 t2 : List (String × String)) (s : String)
    (hperm : t1.Perm t2)
    (hagree : ∀ kv1 ∈ t1, ∀ kv2 ∈ t1,
      goContains s kv1.1 = true → goContains s kv2.1 = true → kv1.2 = kv2.2) :
    parsePressureWith t1 s = parsePressureWith t2 s := by
  by_cases hex : ∃ kv ∈ t1, goContains s kv.1 = true
  · obtain ⟨kv0, hmem0, hc0⟩ := hex
    rw [parsePressureWith_agree t1 s kv0.2
        (fun kv hm hc => hagree kv hm kv0 hmem0 hc hc0) ⟨kv0, hmem0, hc0⟩,
      parsePressureWith_agree t2 s kv0.2
        (fun kv hm hc => hagree kv (hperm.mem_iff.mpr hm) kv0 hmem0 hc hc0)
        ⟨kv0, hperm.mem_iff.mp hmem0, hc0⟩]
  · have hnone1 : ∀ kv ∈ t1, goContains s kv.1 = false := by
      intro kv hm
      cases hcb : goContains s kv.1
      · rfl
      · exact absurd ⟨kv, hm, hcb⟩ hex
    have hnone2 : ∀ kv ∈ t2, goContains s kv.1 = false := fun kv hm =>
      hnone1 kv (hperm.mem_iff.mpr hm)
    unfold parsePressureWith
    rw [(firstToken_eq_none_iff t1 s).mpr hnone1, (firstToken_eq_none_iff t2 s).mpr hnone2]

/-- C9 witness: the two concrete orders agree on the unambiguous input
`LO<`. -/
theorem c9_order_independence_witness :
    (∀ kv1 ∈ stringResponse, ∀ kv2 ∈ stringResponse,
      goContains "LO<" kv1.1 = true → goContains "LO<" kv2.1 = true → kv1.2 = kv2.2) ∧
    parsePressureWith stringResponse "LO<" = parsePressureWith stringResponseAlt "LO<" :=
  ⟨by decide,
   c9_order_independence stringResponse stringResponseAlt "LO<" stringResponse_perm_alt
     (by decide)⟩

/-- C10 counterexample: a `PRZ` response splitting into seven fields
whose seventh field does not decode makes `GetPressures` return that
field's parse error — the loop aborts before the out-of-range write, so
not every more-than-six-field response reaches the out-of-bounds
access. -/
theorem c10_counterexample :
    6 < (goSplitSpace "1 2 3 4 5 6 xyz").length ∧
    (GetPressures 48 ⟨true, [], ["@048ACK1 2 3 4 5 6 xyz;FF"]⟩).2 =
      .error (.parseFloatErr "xyz") := by
  decide

/-- C10 (amended): whenever the space-split of the `PRZ` response has
more than six fields and its first seven fields all decode successfully,
`GetPressures` performs the out-of-range write on its fixed six-element
slice — a runtime index-out-of-range fault, not a typed error.  When an
earlier field fails to decode, the call instead returns that error (see
the counterexample). -/
theorem c10_oob_after_seven (address : Int) (st : CommState) (r : String)
    (rest : List String) (v : String)
    (hconn : st.connected = true) (hresp : st.responses = r :: rest)
    (hm : findMatch r = some (pad3 address, v))
    (hlen : 6 < (goSplitSpace v).length)
    (hok : ∀ f ∈ (goSplitSpace v).take 7, (parsePressure f).isOk = true) :
    (GetPressures address st).2 = .panicked "index out of range" := by
  unfold GetPressures
  rw [Query_ok address st "PRZ" r rest v hconn hresp hm]
  dsimp only
  apply przLoop_panic
  · simp
  · simpa using hlen
  · simpa using hok

/-- C10 witness: a seven-field response of decodable numbers reaches the
out-of-range write. -/
theorem c10_oob_after_seven_witness :
    findMatch "@048ACK1 2 3 4 5 6 7;FF" = some (pad3 48, "1 2 3 4 5 6 7") ∧
    6 < (goSplitSpace "1 2 3 4 5 6 7").length ∧
    (∀ f ∈ (goSplitSpace "1 2 3 4 5 6 7").take 7, (parsePressure f).isOk = true) ∧
    (GetPressures 48 ⟨true, [], ["@048ACK1 2 3 4 5 6 7;FF"]⟩).2 =
      .panicked "index out of range" :=
  ⟨by decide, by decide, by decide,
   c10_oob_after_seven 48 ⟨true, [], ["@048ACK1 2 3 4 5 6 7;FF"]⟩ "@048ACK1 2 3 4 5 6 7;FF"
     [] "1 2 3 4 5 6 7" rfl rfl (by decide) (by decide) (by decide)⟩

/-- C6 witness: the spec's all-channel example response decodes to
exactly six readings in field order, the 3rd and 5th symbolic and the
rest numeric OK. -/
theorem c6_getPressures_six_fields_witness :
    findMatch "@048ACK1.0E-03 2.0E-03 OFF 1.0E-04 LO< 3.0E-03;FF" =
      some (pad3 48, "1.0E-03 2.0E-03 OFF 1.0E-04 LO< 3.0E-03") ∧
    (goSplitSpace "1.0E-03 2.0E-03 OFF 1.0E-04 LO< 3.0E-03").length = 6 ∧
    mapMParse (goSplitSpace "1.0E-03 2.0E-03 OFF 1.0E-04 LO< 3.0E-03") =
      .ok [⟨mkRat 1 1000, "OK"⟩, ⟨mkRat 1 500, "OK"⟩,
        ⟨0, "Cold cathode HV if OFF, or HC/PR/CP power if OFF"⟩, ⟨mkRat 1 10000, "OK"⟩,
        ⟨0, "Pressure lower than minimum"⟩, ⟨mkRat 3 1000, "OK"⟩] ∧
    (GetPressures 48
        ⟨true, [], ["@048ACK1.0E-03 2.0E-03 OFF 1.0E-04 LO< 3.0E-03;FF"]⟩).2 =
      .ok [⟨mkRat 1 1000, "OK"⟩, ⟨mkRat 1 500, "OK"⟩,
        ⟨0, "Cold cathode HV if OFF, or HC/PR/CP power if OFF"⟩, ⟨mkRat 1 10000, "OK"⟩,
        ⟨0, "Pressure lower than minimum"⟩, ⟨mkRat 3 1000, "OK"⟩] ∧
    ([⟨mkRat 1 1000, "OK"⟩, ⟨mkRat 1 500, "OK"⟩,
        (⟨0, "Cold cathode HV if OFF, or HC/PR/CP power if OFF"⟩ : PressureReading),
        ⟨mkRat 1 10000, "OK"⟩, ⟨0, "Pressure lower than minimum"⟩,
        ⟨mkRat 3 1000, "OK"⟩] : List PressureReading).length = 6 := by
  have hsplit : goSplitSpace "1.0E-03 2.0E-03 OFF 1.0E-04 LO< 3.0E-03" =
      ["1.0E-03", "2.0E-03", "OFF", "1.0E-04", "LO<", "3.0E-03"] := by decide
  have h1 : parsePressure "1.0E-03" = .ok ⟨mkRat 1 1000, "OK"⟩ := by
    decide
  have h2 : parsePressure "2.0E-03" = .ok ⟨mkRat 1 500, "OK"⟩ := by
    decide
  have h3 : parsePressure "OFF" =
      .ok ⟨0, "Cold cathode HV if OFF, or HC/PR/CP power if OFF"⟩ := by decide
  have h4 : parsePressure "1.0E-04" = .ok ⟨mkRat 1 10000, "OK"⟩ := by
    decide
  have h5 : parsePressure "LO<" = .ok ⟨0, "Pressure lower than minimum"⟩ := by decide
  have h6 : parsePressure "3.0E-03" = .ok ⟨mkRat 3 1000, "OK"⟩ := by
    decide
  have hmap : mapMParse (goSplitSpace "1.0E-03 2.0E-03 OFF 1.0E-04 LO< 3.0E-03") =
      .ok [⟨mkRat 1 1000, "OK"⟩, ⟨mkRat 1 500, "OK"⟩,
        ⟨0, "Cold cathode HV if OFF, or HC/PR/CP power if OFF"⟩, ⟨mkRat 1 10000, "OK"⟩,
        ⟨0, "Pressure lower than minimum"⟩, ⟨mkRat 3 1000, "OK"⟩] := by
    rw [hsplit]
    simp [mapMParse, h1, h2, h3, h4, h5, h6]
  refine ⟨by decide, by decide, hmap, ?_, by decide⟩
  exact ((c6_getPressures_six_fields 48
    ⟨true, [], ["@048ACK1.0E-03 2.0E-03 OFF 1.0E-04 LO< 3.0E-03;FF"]⟩
    "@048ACK1.0E-03 2.0E-03 OFF 1.0E-04 LO< 3.0E-03;FF" []
    "1.0E-03 2.0E-03 OFF 1.0E-04 LO< 3.0E-03" rfl rfl (by decide) (by decide)).1
    _ hmap).1

end MKS
